import Mathlib

/-!
Shallow embedding of the tic-tac-toe CosmWasm contract
(src/state.rs, src/msg.rs, src/contract.rs) and verification of its
specified behaviour.

Modelling conventions:
* `Addr` (cosmwasm_std::Addr) is an opaque comparable identifier, modelled
  as `String`.
* The 3x3 array `[[GridCell; 3]; 3]` is modelled as `List (List GridCell)`;
  the shape guaranteed by the Rust type is expressed by the predicate
  `wfBoard`.  A Rust index write is modelled by `setCell?`, which returns
  `none` exactly when the write would be out of bounds (a Rust index
  failure); `try_move` propagates that `none`, so `(try_move ...).isSome`
  states freedom from index failure.
* `u8` row/col arguments are modelled as `Nat` (the bounds test rejects the
  same values; the `row < 0` conjunct of the source is kept and is
  identically false, as for `u8`).
* Storage: `try_move` receives the stored `State` and returns the result
  together with the state held in storage after the call.  `STATE.update`
  of cw_storage_plus saves the closure result only on `Ok`; on `Err` the
  stored value is unchanged and the error propagates.  This is inlined in
  the final `match` of `try_move`.
* `ContractError` lives in crate::error (declared, not in src/); from its
  uses in contract.rs it has a variant `InvalidMove { msg: String }`, which
  is the only variant the contract constructs.
-/

abbrev Addr := String

inductive GridCell where
  | Empty
  | X
  | O
deriving DecidableEq

inductive Turn where
  | Player0
  | Player1
  | Ended
deriving DecidableEq

structure State where
  players : Addr × Addr
  board : List (List GridCell)
  next_turn : Turn
  winner : Option Addr
deriving DecidableEq

inductive ContractError where
  | InvalidMove (msg : String)
deriving DecidableEq

deriving instance DecidableEq for Except

inductive ExecuteMsg where
  | Move (row col : Nat)
deriving DecidableEq

/-- Error message of the bounds check in try_move. -/
def oob_msg : String := "Row and col must be between 1 and 3"

/-- Error message of the membership check in try_move. -/
def not_allowed_msg : String := "You are not allowed to play"

/-- Error message of the turn check in try_move. -/
def not_your_turn_msg : String := "It\x27s not your turn"

/-- Error message of the Ended branches in try_move. -/
def ended_msg : String := "The game has already ended"

/-- The all-Empty 3x3 board `[[GridCell::Empty; 3]; 3]`. -/
def emptyBoard : List (List GridCell) :=
  List.replicate 3 (List.replicate 3 GridCell.Empty)

/-- instantiate (contract.rs): stores players `[sender, opponent]`, an
all-Empty board, `next_turn = Player0`, `winner = None`.  The returned
value is the saved state. -/
def instantiate (sender opponent : Addr) : State :=
  State.mk (sender, opponent) emptyBoard Turn.Player0 none

/-- check_winner (contract.rs): the body is literally `None`. -/
def check_winner (_board : List (List GridCell)) (_players : Addr × Addr) :
    Option Addr :=
  none

/-- The well-formedness the Rust type `[[GridCell; 3]; 3]` guarantees. -/
def wfBoard (b : List (List GridCell)) : Prop :=
  b.length = 3 ∧ ∀ r ∈ b, r.length = 3

instance (b : List (List GridCell)) : Decidable (wfBoard b) := by
  unfold wfBoard
  infer_instance

/-- `board[row][col] = v`: `some` of the updated board when both indices
are in bounds, `none` (a Rust index failure) otherwise. -/
def setCell? (b : List (List GridCell)) (r c : Nat) (v : GridCell) :
    Option (List (List GridCell)) :=
  match b[r]? with
  | none => none
  | some rowL =>
      if c < rowL.length then some (b.set r (rowL.set c v)) else none

/-- The closure passed to `STATE.update` in try_move: flips `next_turn`
(Ended gives an error), writes the mark chosen by the NEW `next_turn`
(Player0 gives X, Player1 gives O) at `board[row][col]`, recomputes
`winner` with `check_winner`, and returns the new state. -/
def moveClosure (row col : Nat) (state : State) :
    Option (Except ContractError State) :=
  match state.next_turn with
  | Turn.Ended => some (Except.error (ContractError.InvalidMove ended_msg))
  | Turn.Player0 =>
      match setCell? state.board row col GridCell.O with
      | none => none
      | some b =>
          some (Except.ok (State.mk state.players b Turn.Player1
            (check_winner b state.players)))
  | Turn.Player1 =>
      match setCell? state.board row col GridCell.X with
      | none => none
      | some b =>
          some (Except.ok (State.mk state.players b Turn.Player0
            (check_winner b state.players)))

/-- try_move (contract.rs).  `store` is the stored state; the result pairs
the contract result (`Unit` stands for the Response) with the state held
in storage after the call; `none` is an index failure inside the update
closure.  The checks appear in source order: bounds, membership, turn;
then `STATE.update` runs the closure and saves only on `Ok`. -/
def try_move (store : State) (sender : Addr) (row col : Nat) :
    Option (Except ContractError Unit × State) :=
  if (row < 0 ∨ row > 2) ∨ (col < 0 ∨ col > 2) then
    some (Except.error (ContractError.InvalidMove oob_msg), store)
  else if ¬ (store.players.1 = sender ∨ store.players.2 = sender) then
    some (Except.error (ContractError.InvalidMove not_allowed_msg), store)
  else
    match store.next_turn with
    | Turn.Ended =>
        some (Except.error (ContractError.InvalidMove ended_msg), store)
    | Turn.Player0 =>
        if sender ≠ store.players.1 then
          some (Except.error (ContractError.InvalidMove not_your_turn_msg),
            store)
        else
          match moveClosure row col store with
          | none => none
          | some (Except.ok s2) => some (Except.ok (), s2)
          | some (Except.error e) => some (Except.error e, store)
    | Turn.Player1 =>
        if sender ≠ store.players.2 then
          some (Except.error (ContractError.InvalidMove not_your_turn_msg),
            store)
        else
          match moveClosure row col store with
          | none => none
          | some (Except.ok s2) => some (Except.ok (), s2)
          | some (Except.error e) => some (Except.error e, store)

/-- execute (contract.rs): dispatches `ExecuteMsg::Move` to try_move. -/
def execute (store : State) (sender : Addr) :
    ExecuteMsg → Option (Except ContractError Unit × State)
  | ExecuteMsg.Move row col => try_move store sender row col

/-- Runs a list of moves from a state, keeping the stored state after each
call; stops (with `none`) at the first rejected move or index failure. -/
def runMoves (s : State) : List (Addr × Nat × Nat) → Option State
  | [] => some s
  | (a, r, c) :: rest =>
      match try_move s a r c with
      | some (Except.ok _, s2) => runMoves s2 rest
      | _ => none

/-- Cell of a board at (row, col), defaulting to Empty out of bounds. -/
def cellAt (b : List (List GridCell)) (rc : Nat × Nat) : GridCell :=
  (b.getD rc.1 []).getD rc.2 GridCell.Empty

/-- Number of non-Empty cells of a board. -/
def countNonEmpty (b : List (List GridCell)) : Nat :=
  (b.map (fun r => r.countP (fun c => c ≠ GridCell.Empty))).sum

/-- Number of Empty cells of a board. -/
def countEmpty (b : List (List GridCell)) : Nat :=
  (b.map (fun r => r.countP (fun c => c = GridCell.Empty))).sum

/-- The outcomes of the specification. -/
inductive Outcome where
  | InProgress
  | WinnerA
  | WinnerB
  | Draw
deriving DecidableEq

/-- The 8 winning lines: 3 rows, 3 columns, 2 diagonals. -/
def winLines : List (List (Nat × Nat)) :=
  [[(0, 0), (0, 1), (0, 2)], [(1, 0), (1, 1), (1, 2)],
   [(2, 0), (2, 1), (2, 2)],
   [(0, 0), (1, 0), (2, 0)], [(0, 1), (1, 1), (2, 1)],
   [(0, 2), (1, 2), (2, 2)],
   [(0, 0), (1, 1), (2, 2)], [(0, 2), (1, 1), (2, 0)]]

/-- Mark completing a line, if the 3 cells are non-Empty and identical. -/
def lineWinner (b : List (List GridCell)) (l : List (Nat × Nat)) :
    Option GridCell :=
  match l.map (cellAt b) with
  | [x, y, z] =>
      if x ≠ GridCell.Empty ∧ x = y ∧ y = z then some x else none
  | _ => none

/-- Modelled from the spec: the correct outcome detection `evaluate`
(section 4.3), which check_winner in contract.rs leaves as a stub.
Enumerate the 8 winning lines; if one is uniformly marked its owner wins
(X belongs to the first mover, MarkA); if none is won and no cell is
Empty the game is a Draw; otherwise it is InProgress. -/
def evaluate_spec (b : List (List GridCell)) : Outcome :=
  match (winLines.filterMap (lineWinner b)).head? with
  | some GridCell.X => Outcome.WinnerA
  | some GridCell.O => Outcome.WinnerB
  | some GridCell.Empty => Outcome.InProgress
  | none => if countEmpty b = 0 then Outcome.Draw else Outcome.InProgress

/-- Nine accepted moves covering every cell, alternating p0 and p1. -/
def nineMoves : List (Addr × Nat × Nat) :=
  [("p0", 0, 0), ("p1", 0, 1), ("p0", 0, 2), ("p1", 1, 0), ("p0", 1, 1),
   ("p1", 1, 2), ("p0", 2, 0), ("p1", 2, 1), ("p0", 2, 2)]

/-- A board whose first row is uniformly X: a won position. -/
def wonBoard : List (List GridCell) :=
  [[GridCell.X, GridCell.X, GridCell.X],
   [GridCell.O, GridCell.O, GridCell.Empty],
   [GridCell.Empty, GridCell.Empty, GridCell.Empty]]

/-- A state whose turn is Ended (a terminated game). -/
def endedState : State := State.mk ("p0", "p1") emptyBoard Turn.Ended none

/-- States reachable from instantiation by any sequence of execute calls
(each call keeps the resulting stored state, whether the move was accepted
or rejected). -/
inductive Reachable : State → Prop where
  | instantiated (sender opponent : Addr) :
      Reachable (instantiate sender opponent)
  | stepped (s : State) (sender : Addr) (msg : ExecuteMsg)
      (r : Except ContractError Unit) (s2 : State) :
      Reachable s → execute s sender msg = some (r, s2) → Reachable s2

/-- Every error branch of try_move leaves the stored state unchanged. -/
theorem tm_error_store_aux (s : State) (a : Addr) (row col : Nat)
    (e : ContractError) (s2 : State)
    (h : try_move s a row col = some (Except.error e, s2)) : s2 = s := by
  unfold try_move at h
  split at h
  · simp only [Option.some.injEq, Prod.mk.injEq] at h
    exact h.2.symm
  · split at h
    · simp only [Option.some.injEq, Prod.mk.injEq] at h
      exact h.2.symm
    · split at h
      · simp only [Option.some.injEq, Prod.mk.injEq] at h
        exact h.2.symm
      · split at h
        · simp only [Option.some.injEq, Prod.mk.injEq] at h
          exact h.2.symm
        · split at h
          · exact Option.noConfusion h
          · simp at h
          · simp only [Option.some.injEq, Prod.mk.injEq] at h
            exact h.2.symm
      · split at h
        · simp only [Option.some.injEq, Prod.mk.injEq] at h
          exact h.2.symm
        · split at h
          · exact Option.noConfusion h
          · simp at h
          · simp only [Option.some.injEq, Prod.mk.injEq] at h
            exact h.2.symm

/-- A state produced by the update closure has winner None (check_winner
is a stub) and next_turn Player0 or Player1 (the flip never yields
Ended). -/
theorem moveClosure_ok_shape (row col : Nat) (s s2 : State)
    (h : moveClosure row col s = some (Except.ok s2)) :
    s2.winner = none ∧
      (s2.next_turn = Turn.Player0 ∨ s2.next_turn = Turn.Player1) := by
  unfold moveClosure at h
  split at h
  · simp at h
  · split at h
    · exact Option.noConfusion h
    · simp only [Option.some.injEq, Except.ok.injEq] at h
      subst h
      exact ⟨rfl, Or.inr rfl⟩
  · split at h
    · exact Option.noConfusion h
    · simp only [Option.some.injEq, Except.ok.injEq] at h
      subst h
      exact ⟨rfl, Or.inl rfl⟩

/-- A state stored by an accepted try_move has winner None and next_turn
Player0 or Player1. -/
theorem tm_ok_shape_aux (s : State) (a : Addr) (row col : Nat) (s2 : State)
    (h : try_move s a row col = some (Except.ok (), s2)) :
    s2.winner = none ∧
      (s2.next_turn = Turn.Player0 ∨ s2.next_turn = Turn.Player1) := by
  unfold try_move at h
  split at h
  · simp at h
  · split at h
    · simp at h
    · split at h
      · simp at h
      · split at h
        · simp at h
        · split at h
          · exact Option.noConfusion h
          · rename_i s3 heq
            simp only [Option.some.injEq, Prod.mk.injEq] at h
            exact h.2 ▸ moveClosure_ok_shape row col s s3 heq
          · simp at h
      · split at h
        · simp at h
        · split at h
          · exact Option.noConfusion h
          · rename_i s3 heq
            simp only [Option.some.injEq, Prod.mk.injEq] at h
            exact h.2 ▸ moveClosure_ok_shape row col s s3 heq
          · simp at h

/-- On a well-formed board, a write at indices below 3 is in bounds. -/
theorem setCell_isSome (b : List (List GridCell)) (r c : Nat) (v : GridCell)
    (hwf : wfBoard b) (hr : r < 3) (hc : c < 3) :
    (setCell? b r c v).isSome := by
  obtain ⟨hlen, hrows⟩ := hwf
  have hr3 : r < b.length := by omega
  unfold setCell?
  split
  · rename_i hnone
    rw [List.getElem?_eq_getElem hr3] at hnone
    exact Option.noConfusion hnone
  · rename_i rowL hsome
    rw [List.getElem?_eq_getElem hr3] at hsome
    injection hsome with h2
    have hlen3 : rowL.length = 3 := by
      rw [← h2]
      exact hrows _ (List.getElem_mem hr3)
    simp [hlen3, hc]

/-- On a well-formed board, the update closure never hits an index
failure when both indices are below 3. -/
theorem moveClosure_isSome (row col : Nat) (s : State)
    (hwf : wfBoard s.board) (hr : row < 3) (hc : col < 3) :
    (moveClosure row col s).isSome := by
  unfold moveClosure
  split
  · simp
  · have h := setCell_isSome s.board row col GridCell.O hwf hr hc
    cases hsc : setCell? s.board row col GridCell.O
    · rw [hsc] at h
      simp at h
    · simp [hsc]
  · have h := setCell_isSome s.board row col GridCell.X hwf hr hc
    cases hsc : setCell? s.board row col GridCell.X
    · rw [hsc] at h
      simp at h
    · simp [hsc]

/-- Claim C1: the outcome detection of the contract is a stub.  On a board
whose first row is uniformly X, check_winner still returns None, while the
algorithm of the specification (evaluate_spec) reports the win of the
first mover (WinnerA).  The code contradicts its own header comment (the
first player to reach 3 in a row wins) and the GetState/winner query. -/
theorem check_winner_stub_ignores_completed_row :
    check_winner wonBoard ("p0", "p1") = none ∧
    evaluate_spec wonBoard = Outcome.WinnerA :=
  ⟨rfl, by decide⟩

/-- Claim C2: the first move of a fresh game by the first player is
accepted and advances the turn, but the cell receives GridCell.O (the
mark of the second player), not MarkA = X as the claim states: try_move
flips next_turn before choosing the mark, so the mark is taken from the
player who moves NEXT, not from the acting player. -/
theorem first_move_by_player0_places_O :
    (runMoves (instantiate "p0" "p1") [("p0", 0, 0)]).map
        (fun s => (cellAt s.board (0, 0), s.next_turn)) =
      some (GridCell.O, Turn.Player1) := by decide

/-- Claim C3: try_move has no occupied-cell check.  After p0 marks (0,0),
the move of p1 at the same cell is accepted and overwrites the cell (the
stored mark changes from O to X), instead of failing with CellOccupied
and leaving the state unchanged. -/
theorem move_on_occupied_cell_accepted_and_overwrites :
    (runMoves (instantiate "p0" "p1") [("p0", 0, 0)]).map
        (fun s => cellAt s.board (0, 0)) = some GridCell.O ∧
    (runMoves (instantiate "p0" "p1") [("p0", 0, 0), ("p1", 0, 0)]).map
        (fun s => cellAt s.board (0, 0)) = some GridCell.X := by decide

/-- Claim C4: after nine accepted moves the board is full (zero Empty
cells), yet next_turn is still Player1 and winner is None: the game never
reaches Ended, refuting the claimed equivalence between Turn = Ended and
a terminal outcome (winner or full board). -/
theorem full_board_game_not_ended :
    (runMoves (instantiate "p0" "p1") nineMoves).map
        (fun s => (countEmpty s.board, s.next_turn, s.winner)) =
      some (0, Turn.Player1, none) := by decide

/-- Claim C5, counterexample: instantiate performs no check on the player
identifiers; with two equal identifiers it does not fail with
InvalidConfiguration but produces a normal initial state. -/
theorem instantiate_equal_players_no_error :
    instantiate "p0" "p0" =
      State.mk ("p0", "p0") emptyBoard Turn.Player0 none := rfl

/-- Claim C5, amended: construction always succeeds, for any pair of
identifiers (equal or distinct), and produces an all-Empty board,
next_turn = Player0, winner = None, with the identifiers stored in
order-significant slots (slot 0 = sender moves first). -/
theorem instantiate_unconditional_success (sender opponent : Addr) :
    instantiate sender opponent =
      State.mk (sender, opponent) emptyBoard Turn.Player0 none := rfl

/-- Claim C6, counterexample: on a game with Turn = Ended, a move by an
unregistered actor is rejected by the membership check, which runs BEFORE
the turn check: the error is the UnknownPlayer message, not the GameOver
message, refuting the claimed order (GameOver before UnknownPlayer). -/
theorem ended_game_unknown_actor_not_gameover :
    try_move endedState "intruder" 0 0 =
      some (Except.error (ContractError.InvalidMove not_allowed_msg),
        endedState) ∧
    not_allowed_msg ≠ ended_msg :=
  ⟨by decide, by decide⟩

/-- Claim C6, amended: the checks of try_move run in the fixed order
OutOfBounds, UnknownPlayer, then the turn check (Turn = Ended yields the
GameOver error; a registered actor out of turn yields NotYourTurn); there
is no CellOccupied check, and the first failing check determines the
returned error, always leaving the stored state unchanged. -/
theorem try_move_check_order (s : State) (sender : Addr) (row col : Nat) :
    ((row > 2 ∨ col > 2) →
      try_move s sender row col =
        some (Except.error (ContractError.InvalidMove oob_msg), s)) ∧
    (row ≤ 2 → col ≤ 2 → ¬ (s.players.1 = sender ∨ s.players.2 = sender) →
      try_move s sender row col =
        some (Except.error (ContractError.InvalidMove not_allowed_msg), s)) ∧
    (row ≤ 2 → col ≤ 2 → (s.players.1 = sender ∨ s.players.2 = sender) →
      s.next_turn = Turn.Ended →
      try_move s sender row col =
        some (Except.error (ContractError.InvalidMove ended_msg), s)) ∧
    (row ≤ 2 → col ≤ 2 → (s.players.1 = sender ∨ s.players.2 = sender) →
      s.next_turn = Turn.Player0 → sender ≠ s.players.1 →
      try_move s sender row col =
        some (Except.error (ContractError.InvalidMove not_your_turn_msg),
          s)) ∧
    (row ≤ 2 → col ≤ 2 → (s.players.1 = sender ∨ s.players.2 = sender) →
      s.next_turn = Turn.Player1 → sender ≠ s.players.2 →
      try_move s sender row col =
        some (Except.error (ContractError.InvalidMove not_your_turn_msg),
          s)) := by
  refine ⟨?_, ?_, ?_, ?_, ?_⟩
  · intro h
    unfold try_move
    rw [if_pos (by omega)]
  · intro h1 h2 hmem
    unfold try_move
    rw [if_neg (by omega), if_pos hmem]
  · intro h1 h2 hmem hend
    unfold try_move
    rw [if_neg (by omega), if_neg (not_not_intro hmem), hend]
  · intro h1 h2 hmem hturn hne
    unfold try_move
    rw [if_neg (by omega), if_neg (not_not_intro hmem), hturn]
    rw [if_pos hne]
  · intro h1 h2 hmem hturn hne
    unfold try_move
    rw [if_neg (by omega), if_neg (not_not_intro hmem), hturn]
    rw [if_pos hne]

/-- Witness for the amended claim C6: a registered player moving on an
Ended game receives the GameOver error with the state unchanged. -/
theorem try_move_check_order_witness :
    try_move endedState "p0" 0 0 =
      some (Except.error (ContractError.InvalidMove ended_msg), endedState) :=
  (try_move_check_order endedState "p0" 0 0).2.2.1 (by omega) (by omega)
    (Or.inl rfl) rfl

/-- Claim C7: rejection atomicity.  Whenever try_move returns an error,
the state held in storage after the call is the input state: every check
returns before the storage update, and STATE.update saves the closure
result only on Ok. -/
theorem try_move_rejection_pure (s : State) (a : Addr) (row col : Nat)
    (e : ContractError) (s2 : State)
    (h : try_move s a row col = some (Except.error e, s2)) : s2 = s :=
  tm_error_store_aux s a row col e s2 h

/-- Witness for claim C7: a rejected move (unknown actor) on a fresh game
leaves the stored state equal to the input state. -/
theorem try_move_rejection_pure_witness :
    instantiate "p0" "p1" = instantiate "p0" "p1" :=
  try_move_rejection_pure (instantiate "p0" "p1") "intruder" 0 0
    (ContractError.InvalidMove not_allowed_msg) (instantiate "p0" "p1")
    (by decide)

/-- Claim C8: occupancy is not monotonic by exactly 1 per accepted move.
The second accepted move below targets the occupied cell (0,0) and leaves
the count of non-Empty cells at 1 instead of increasing it to 2. -/
theorem accepted_overwrite_keeps_occupancy_count :
    (runMoves (instantiate "p0" "p1") [("p0", 0, 0)]).map
        (fun s => countNonEmpty s.board) = some 1 ∧
    (runMoves (instantiate "p0" "p1") [("p0", 0, 0), ("p1", 0, 0)]).map
        (fun s => countNonEmpty s.board) = some 1 := by decide

/-- Claim C9: in every state reachable from instantiation via execute
calls, winner is None and next_turn is never Ended: check_winner always
returns None and the turn flip maps Player0 and Player1 to each other. -/
theorem reachable_winner_none_turn_not_ended (s : State)
    (h : Reachable s) : s.winner = none ∧ s.next_turn ≠ Turn.Ended := by
  induction h with
  | instantiated a b => simp [instantiate]
  | stepped s a msg r s2 hreach heq ih =>
      cases msg with
      | Move row col =>
          simp only [execute] at heq
          cases r with
          | error e =>
              have h2 := tm_error_store_aux s a row col e s2 heq
              subst h2
              exact ih
          | ok u =>
              cases u
              have h2 := tm_ok_shape_aux s a row col s2 heq
              refine ⟨h2.1, ?_⟩
              rcases h2.2 with h3 | h3 <;> simp [h3]

/-- Witness for claim C9 at the freshly instantiated state. -/
theorem reachable_winner_none_turn_not_ended_witness :
    (instantiate "p0" "p1").winner = none ∧
      (instantiate "p0" "p1").next_turn ≠ Turn.Ended :=
  reachable_winner_none_turn_not_ended (instantiate "p0" "p1")
    (Reachable.instantiated "p0" "p1")

/-- Claim C10: try_move never hits an index failure on a well-formed 3x3
board: the bounds check rejecting row > 2 or col > 2 runs first, so any
write happens at indices below 3, and the operation is total for every
actor, every state and all (unsigned) row and col values. -/
theorem try_move_never_panics (s : State) (a : Addr) (row col : Nat)
    (hwf : wfBoard s.board) : (try_move s a row col).isSome := by
  unfold try_move
  split
  · simp
  · rename_i hb
    push_neg at hb
    have hr : row < 3 := by omega
    have hc : col < 3 := by omega
    have hmc := moveClosure_isSome row col s hwf hr hc
    split
    · simp
    · split
      · simp
      · split
        · simp
        · cases hm : moveClosure row col s
          · rw [hm] at hmc
            simp at hmc
          · rename_i val
            cases val <;> simp [hm]
      · split
        · simp
        · cases hm : moveClosure row col s
          · rw [hm] at hmc
            simp at hmc
          · rename_i val
            cases val <;> simp [hm]

/-- Witness for claim C10 at a fresh game and in-range and out-of-range
indices: both calls return a value (here shown at row 7). -/
theorem try_move_never_panics_witness :
    (try_move (instantiate "p0" "p1") "p0" 7 0).isSome :=
  try_move_never_panics (instantiate "p0" "p1") "p0" 7 0 (by decide)
